import Mathlib

/-!
Verification of the web3sentry detector aggregation engine.

The definitions below are a shallow embedding of the Python modules
`src/web3sentry/utils/risk_utils.py` and `src/api/detector_service.py`:

* `get_risk_level_priority`, `calculate_highest_risk_level` and
  `combine_detector_results` mirror the functions of the same names in
  `risk_utils.py`.
* `DetectorService.analyze_transaction` is embedded as
  `analyze_transaction` over a registry modelled as an insertion-ordered
  association list (a Python dict).  A detector is modelled, for one
  fixed transaction, by its `enabled` flag together with the behaviour of
  its `analyze` coroutine on that transaction: either a returned result
  dictionary or the message of a raised exception.
-/

namespace Web3Sentry

/-- Python `str.lower()` restricted to the basic-latin range, character by
character; `Char.toLower` performs exactly the ASCII case shift of the
levels used by the code. -/
def pyLower (s : String) : String := ⟨s.data.map Char.toLower⟩

/-- Embedding of `get_risk_level_priority`: the dictionary lookup
`risk_levels.get(risk_level.lower(), 0)` over the seven recognised
levels, with default rank 0. -/
def get_risk_level_priority (risk_level : String) : Nat :=
  if pyLower risk_level = "safe" then 0
  else if pyLower risk_level = "unknown" then 1
  else if pyLower risk_level = "low" then 2
  else if pyLower risk_level = "medium" then 3
  else if pyLower risk_level = "high" then 4
  else if pyLower risk_level = "critical" then 5
  else if pyLower risk_level = "error" then 6
  else 0

/-- The `for level in risk_levels` loop of `calculate_highest_risk_level`,
carrying the running `highest_risk` and `highest_index` variables. -/
def highestLoop : List String → String → Nat → String
  | [], highest_risk, _ => highest_risk
  | level :: rest, highest_risk, highest_index =>
    if get_risk_level_priority level > highest_index then
      highestLoop rest level (get_risk_level_priority level)
    else highestLoop rest highest_risk highest_index

/-- Embedding of `calculate_highest_risk_level`: returns `"unknown"` on an
empty input, otherwise scans the list starting from `("safe", priority "safe")`,
updating only on a strictly greater priority. -/
def calculate_highest_risk_level (risk_levels : List String) : String :=
  if risk_levels.isEmpty then "unknown"
  else highestLoop risk_levels "safe" (get_risk_level_priority "safe")

section CharLemmas

theorem toNat_ofNat_valid (n : Nat) (h : n.isValidChar) :
    (Char.ofNat n).toNat = n := by
  rw [Char.ofNat, dif_pos h]
  rfl

theorem toLower_idem (c : Char) : (Char.toLower c).toLower = Char.toLower c := by
  by_cases h : c.toNat ≥ 65 ∧ c.toNat ≤ 90
  · have hv : (c.toNat + 32).isValidChar := Or.inl (by omega)
    have h1 : Char.toLower c = Char.ofNat (c.toNat + 32) := by
      unfold Char.toLower
      exact if_pos h
    have ht : (Char.ofNat (c.toNat + 32)).toNat = c.toNat + 32 :=
      toNat_ofNat_valid _ hv
    have h2 : ¬((Char.ofNat (c.toNat + 32)).toNat ≥ 65 ∧
        (Char.ofNat (c.toNat + 32)).toNat ≤ 90) := by
      rw [ht]; omega
    rw [h1]
    unfold Char.toLower
    exact if_neg h2
  · have h1 : Char.toLower c = c := by
      unfold Char.toLower
      exact if_neg h
    rw [h1, h1]

theorem pyLower_idem (s : String) : pyLower (pyLower s) = pyLower s := by
  show String.mk ((s.data.map Char.toLower).map Char.toLower) =
    String.mk (s.data.map Char.toLower)
  rw [List.map_map]
  exact congrArg String.mk
    (List.map_congr_left (fun c _ => toLower_idem c))

end CharLemmas

/-- The shape of the `"details"` value of a detector's result dictionary,
as `combine_detector_results` discriminates it: absent, a plain string, or
a list of strings. -/
inductive DetailsField where
  | missing : DetailsField
  | str : String → DetailsField
  | list : List String → DetailsField
deriving DecidableEq

/-- Projection of the result dictionary returned by a detector's `analyze`
onto the keys the service and `combine_detector_results` read: an optional
`"success"` value, an optional `"risk_level"`, the `"details"` field, and
an optional `"error"` message. -/
structure DetResult where
  success : Option Bool
  risk_level : Option String
  details : DetailsField
  error : Option String
deriving DecidableEq

/-- One entry of the per-detector `results` mapping built by
`analyze_transaction`: a success wrapper `\x7b"success": True, **result\x7d`
or a failure record `\x7b"success": False, "error": msg, "risk_level": "error"\x7d`. -/
structure Entry where
  success : Bool
  risk_level : Option String
  details : DetailsField
  error : Option String
deriving DecidableEq

/-- The dictionary returned by `combine_detector_results`. -/
structure CombinedResult where
  overall_risk : String
  details : List String
  detector_results : List (String × Entry)
deriving DecidableEq

deriving instance DecidableEq for Except

/-- A registered detector, for one fixed transaction: its `enabled` flag,
and the behaviour of `analyze` on that transaction — `Except.ok` a result
dictionary, or `Except.error` carrying the raised exception's message
(`str(e)`). -/
structure Detector where
  enabled : Bool
  outcome : Except String DetResult
deriving DecidableEq

/-- The registry `self.detectors`: a Python dict embedded as an
insertion-ordered association list. -/
abbrev Registry := List (String × Detector)

/-- Python dict lookup `d.get(k)` on an association list. -/
def dictLookup {α : Type} : List (String × α) → String → Option α
  | [], _ => none
  | p :: ps, k => if p.1 = k then some p.2 else dictLookup ps k

/-- Python dict assignment `d[k] = v`: replace in place when the key is
present, append otherwise. -/
def dictInsert {α : Type} (d : List (String × α)) (k : String) (v : α) :
    List (String × α) :=
  if k ∈ d.map Prod.fst then
    d.map (fun p => if p.1 = k then (k, v) else p)
  else d ++ [(k, v)]

/-- One step of the dict comprehension over `detector_ids`: keep the id
when the registry holds it, skip it otherwise. -/
def selectStep (reg : Registry) (acc : Registry) (id : String) : Registry :=
  match dictLookup reg id with
  | some d => dictInsert acc id d
  | none => acc

/-- The `detectors_to_use` computation of `analyze_transaction`: with no
subset (or, by Python truthiness, an empty one) every registered detector
is a candidate; otherwise the dict comprehension keeps, in subset order,
the requested identifiers found in the registry. -/
def selectDetectors (reg : Registry) : Option (List String) → Registry
  | none => reg
  | some ids =>
    if ids.isEmpty then reg
    else ids.foldl (selectStep reg) []

/-- The per-detector entry recorded by the results loop of
`analyze_transaction` for one gathered outcome. -/
def entryOf : Except String DetResult → Entry
  | .error msg =>
    { success := false, risk_level := some "error",
      details := .missing, error := some msg }
  | .ok r =>
    { success := r.success.getD true, risk_level := r.risk_level,
      details := r.details, error := r.error }

/-- The detail strings one entry contributes in `combine_detector_results`,
each labelled `[detector_id] detail`. -/
def tagDetails (detector_id : String) (e : Entry) : List String :=
  match e.details with
  | .list l => l.map (fun d => "[" ++ detector_id ++ "] " ++ d)
  | .str s => ["[" ++ detector_id ++ "] " ++ s]
  | .missing => []

/-- Embedding of `combine_detector_results`. -/
def combine_detector_results (results : List (String × Entry)) :
    CombinedResult :=
  let risk_levels := results.filterMap
    (fun p => if p.2.success then p.2.risk_level else none)
  let all_details := results.flatMap (fun p => tagDetails p.1 p.2)
  { overall_risk := calculate_highest_risk_level risk_levels
    details := all_details
    detector_results := results }

/-- The results loop `for i, detector_id in enumerate(detectors_to_use.keys())`
of `analyze_transaction`, pairing the i-th selected key with
`detector_results[i]`; when the gathered list is shorter than the key list
the Python indexing raises `IndexError`, embedded as `Except.error ()`. -/
def processResults :
    List String → List (Except String DetResult) →
      Except Unit (List (String × Entry))
  | [], _ => .ok []
  | _ :: _, [] => .error ()
  | k :: ks, o :: os =>
    match processResults ks os with
    | .error e => .error e
    | .ok rest => .ok ((k, entryOf o) :: rest)

/-- Embedding of `DetectorService.analyze_transaction`: select the
candidate detectors, create one task per enabled candidate, gather their
outcomes, rebuild the per-detector mapping by index, and combine.  Any
uncaught exception of the method body (the `IndexError` of the results
loop) surfaces as `Except.error ()`. -/
def analyze_transaction (reg : Registry)
    (detector_ids : Option (List String)) : Except Unit CombinedResult :=
  let sel := selectDetectors reg detector_ids
  let outcomes := (sel.filter (fun p => p.2.enabled)).map
    (fun p => p.2.outcome)
  (processResults (sel.map Prod.fst) outcomes).map combine_detector_results

/-- The identifiers actually dispatched by one call: selected, found, and
enabled. -/
def dispatchedIds (reg : Registry) (detector_ids : Option (List String)) :
    List String :=
  ((selectDetectors reg detector_ids).filter
    (fun p => p.2.enabled)).map Prod.fst

/-- Claim C6: `calculate_highest_risk_level` applied to the empty list of
risk levels returns `"unknown"`. -/
theorem highest_risk_empty_unknown :
    calculate_highest_risk_level [] = "unknown" := rfl

/-- Claim C10: `get_risk_level_priority` is case-insensitive — for every
string `s` it agrees with the priority of the lowercased form of `s`; in
particular the priorities of `"CRITICAL"` and `"critical"` coincide. -/
theorem priority_case_insensitive :
    (∀ s : String,
      get_risk_level_priority s = get_risk_level_priority (pyLower s)) ∧
    get_risk_level_priority "CRITICAL" = get_risk_level_priority "critical" := by
  refine ⟨fun s => ?_, rfl⟩
  unfold get_risk_level_priority
  rw [pyLower_idem]

/-- Claim C8: a string whose lowercased form is not one of the seven
recognised risk levels gets priority `get_risk_level_priority "safe"`,
the lowest rank, and the lookup does not fail. -/
theorem priority_unrecognized_default (s : String)
    (h : pyLower s ∉ (["safe", "unknown", "low", "medium", "high",
      "critical", "error"] : List String)) :
    get_risk_level_priority s = get_risk_level_priority "safe" := by
  simp only [List.mem_cons, List.not_mem_nil, or_false, not_or] at h
  obtain ⟨h1, h2, h3, h4, h5, h6, h7⟩ := h
  unfold get_risk_level_priority
  rw [if_neg h1, if_neg h2, if_neg h3, if_neg h4, if_neg h5, if_neg h6,
    if_neg h7]
  rfl

/-- Witness for C8 at the concrete string of the specification. -/
theorem priority_unrecognized_default_witness :
    pyLower "unrecognized-garbage" ∉ (["safe", "unknown", "low", "medium",
      "high", "critical", "error"] : List String) ∧
    get_risk_level_priority "unrecognized-garbage" =
      get_risk_level_priority "safe" :=
  ⟨by decide, priority_unrecognized_default "unrecognized-garbage" (by decide)⟩

/-- Claim C2 (code bug witness): with detector `A` enabled and detector
`B` disabled and no explicit subset, the results loop of
`analyze_transaction` indexes the gathered list (one element) at position
1 and the call raises `IndexError` instead of returning a mapping without
`B`. -/
theorem analyze_disabled_detector_raises :
    analyze_transaction
      [("A", { enabled := true,
               outcome := .ok { success := none, risk_level := some "low",
                                details := .missing, error := none } }),
       ("B", { enabled := false,
               outcome := .ok { success := none, risk_level := some "safe",
                                details := .missing, error := none } })]
      none = .error () := rfl

/-- Counterexample to claim C1 as stated: a registry holding one enabled
detector whose `analyze` raises yields overall risk `"unknown"`, not
`"error"`, because `combine_detector_results` collects risk levels only
from entries whose success flag is true. -/
theorem analyze_failing_detector_overall_unknown_cex :
    analyze_transaction [("d", { enabled := true, outcome := .error "boom" })]
        (some ["d"]) =
      .ok { overall_risk := "unknown", details := [],
            detector_results := [("d",
              { success := false, risk_level := some "error",
                details := .missing, error := some "boom" })] } ∧
    "unknown" ≠ "error" :=
  ⟨rfl, by decide⟩

/-- Claim C1 as amended: for a registry holding one enabled detector whose
`analyze` raises an exception with message `msg`, the call does not raise,
returns overall risk `"unknown"`, and the per-detector mapping holds an
entry for that id with success false, risk level `"error"`, and the
exception's message as recorded failure detail — non-empty whenever the
exception's message is. -/
theorem analyze_failing_detector_contained (id msg : String)
    (hmsg : msg ≠ "") :
    analyze_transaction [(id, { enabled := true, outcome := .error msg })]
        (some [id]) =
      .ok { overall_risk := "unknown", details := [],
            detector_results := [(id,
              { success := false, risk_level := some "error",
                details := .missing, error := some msg })] } ∧
    some msg ≠ some "" := by
  refine ⟨?_, by simpa using hmsg⟩
  simp [analyze_transaction, selectDetectors, selectStep, dictLookup,
    dictInsert, processResults, entryOf, combine_detector_results,
    calculate_highest_risk_level, tagDetails, Except.map]

/-- Witness for C1 (amended) at a concrete detector id and message. -/
theorem analyze_failing_detector_contained_witness :
    ("boom" : String) ≠ "" ∧
    (analyze_transaction
        [("d", { enabled := true, outcome := .error "boom" })]
        (some ["d"]) =
      .ok { overall_risk := "unknown", details := [],
            detector_results := [("d",
              { success := false, risk_level := some "error",
                details := .missing, error := some "boom" })] } ∧
    some ("boom" : String) ≠ some "") :=
  ⟨by decide, analyze_failing_detector_contained "d" "boom" (by decide)⟩

theorem highestLoop_spec (ls : List String) (hr : String) (hi : Nat) :
    (highestLoop ls hr hi = hr ∧
      ∀ l ∈ ls, get_risk_level_priority l ≤ hi) ∨
    (∃ as bs, ls = as ++ highestLoop ls hr hi :: bs ∧
      hi < get_risk_level_priority (highestLoop ls hr hi) ∧
      (∀ a ∈ as, get_risk_level_priority a <
        get_risk_level_priority (highestLoop ls hr hi)) ∧
      (∀ b ∈ bs, get_risk_level_priority b ≤
        get_risk_level_priority (highestLoop ls hr hi))) := by
  induction ls generalizing hr hi with
  | nil => exact Or.inl ⟨rfl, by simp⟩
  | cons level rest ih =>
    by_cases h : get_risk_level_priority level > hi
    · have hdef : highestLoop (level :: rest) hr hi =
          highestLoop rest level (get_risk_level_priority level) := by
        simp [highestLoop, h]
      rw [hdef]
      rcases ih level (get_risk_level_priority level) with
        ⟨heq, hall⟩ | ⟨as, bs, hsplit, hgt, has, hbs⟩
      · right
        refine ⟨[], rest, ?_, ?_, ?_, ?_⟩
        · rw [heq]; rfl
        · rw [heq]; exact h
        · simp
        · intro b hb; rw [heq]; exact hall b hb
      · right
        refine ⟨level :: as, bs, ?_, ?_, ?_, ?_⟩
        · rw [List.cons_append, ← hsplit]
        · exact Nat.lt_trans h hgt
        · intro a ha
          rcases List.mem_cons.mp ha with rfl | ha'
          · exact hgt
          · exact has a ha'
        · exact hbs
    · have hdef : highestLoop (level :: rest) hr hi =
          highestLoop rest hr hi := by
        simp [highestLoop, h]
      rw [hdef]
      rcases ih hr hi with ⟨heq, hall⟩ | ⟨as, bs, hsplit, hgt, has, hbs⟩
      · left
        refine ⟨heq, fun l hl => ?_⟩
        rcases List.mem_cons.mp hl with rfl | hl'
        · omega
        · exact hall l hl'
      · right
        refine ⟨level :: as, bs, ?_, hgt, ?_, hbs⟩
        · rw [List.cons_append, ← hsplit]
        · intro a ha
          rcases List.mem_cons.mp ha with rfl | ha'
          · omega
          · exact has a ha'

/-- Claim C5 as amended: on a non-empty list of risk levels, either some
input element has positive priority, in which case the scan returns the
first input element attaining the maximum priority (in particular an
element of the list), or every input element has the lowest priority 0,
in which case the scan returns the literal `"safe"`, which need not be an
element of the input. -/
theorem highest_risk_first_max (levels : List String) (h : levels ≠ []) :
    (calculate_highest_risk_level levels = "safe" ∧
      ∀ l ∈ levels, get_risk_level_priority l = 0) ∨
    (∃ as bs, levels = as ++ calculate_highest_risk_level levels :: bs ∧
      0 < get_risk_level_priority (calculate_highest_risk_level levels) ∧
      (∀ a ∈ as, get_risk_level_priority a <
        get_risk_level_priority (calculate_highest_risk_level levels)) ∧
      (∀ b ∈ bs, get_risk_level_priority b ≤
        get_risk_level_priority (calculate_highest_risk_level levels))) := by
  have hne : levels.isEmpty = false := by simpa using h
  have hcalc : calculate_highest_risk_level levels =
      highestLoop levels "safe" (get_risk_level_priority "safe") := by
    simp [calculate_highest_risk_level, hne]
  have hsafe : get_risk_level_priority "safe" = 0 := rfl
  rw [hcalc, hsafe]
  rcases highestLoop_spec levels "safe" 0 with ⟨heq, hall⟩ | hright
  · exact Or.inl ⟨heq, fun l hl => Nat.le_zero.mp (hall l hl)⟩
  · exact Or.inr hright

/-- Witness for C5 (amended) at the input `["low"]`. -/
theorem highest_risk_first_max_witness :
    (["low"] : List String) ≠ [] ∧
    ((calculate_highest_risk_level ["low"] = "safe" ∧
      ∀ l ∈ (["low"] : List String), get_risk_level_priority l = 0) ∨
    (∃ as bs,
      (["low"] : List String) =
        as ++ calculate_highest_risk_level ["low"] :: bs ∧
      0 < get_risk_level_priority (calculate_highest_risk_level ["low"]) ∧
      (∀ a ∈ as, get_risk_level_priority a <
        get_risk_level_priority (calculate_highest_risk_level ["low"])) ∧
      (∀ b ∈ bs, get_risk_level_priority b ≤
        get_risk_level_priority (calculate_highest_risk_level ["low"])))) :=
  ⟨by decide, highest_risk_first_max ["low"] (by decide)⟩

/-- Counterexample to claim C5 as stated: on input `["SAFE"]` the scan
never sees a priority strictly above the initial `"safe"` accumulator, so
it returns the literal `"safe"`, which is not an element of the input
list. -/
theorem highest_risk_not_input_element_cex :
    calculate_highest_risk_level ["SAFE"] = "safe" ∧
    "safe" ∉ (["SAFE"] : List String) :=
  ⟨rfl, by decide⟩

theorem analyze_eq (reg : Registry) (ids : Option (List String)) :
    analyze_transaction reg ids =
      (processResults ((selectDetectors reg ids).map Prod.fst)
        (((selectDetectors reg ids).filter (fun p => p.2.enabled)).map
          (fun p => p.2.outcome))).map combine_detector_results := rfl

theorem processResults_length {ks : List String}
    {os : List (Except String DetResult)} {l : List (String × Entry)}
    (h : processResults ks os = .ok l) : ks.length ≤ os.length := by
  induction ks generalizing os l with
  | nil => simp
  | cons k ks ih =>
    cases os with
    | nil => simp [processResults] at h
    | cons o os =>
      simp only [processResults] at h
      split at h
      · exact absurd h (by simp)
      · rename_i rest heq
        simpa using Nat.succ_le_succ (ih heq)

theorem processResults_lockstep (sel : List (String × Detector)) :
    processResults (sel.map Prod.fst) (sel.map (fun p => p.2.outcome)) =
      .ok (sel.map (fun p => (p.1, entryOf p.2.outcome))) := by
  induction sel with
  | nil => rfl
  | cons p ps ih => simp [processResults, ih]

theorem length_le_filter_eq {α : Type} (p : α → Bool) (l : List α)
    (h : l.length ≤ (l.filter p).length) : l.filter p = l := by
  induction l with
  | nil => rfl
  | cons a l ih =>
    by_cases hp : p a
    · simp only [List.filter_cons, hp, if_pos, List.length_cons] at h ⊢
      rw [ih (by omega)]
    · exfalso
      have hle := List.length_filter_le p l
      simp only [List.filter_cons, hp, List.length_cons] at h
      simp at h
      omega

theorem analyze_ok_spec {reg : Registry} {ids : Option (List String)}
    {c : CombinedResult} (h : analyze_transaction reg ids = .ok c) :
    (selectDetectors reg ids).filter (fun p => p.2.enabled) =
        selectDetectors reg ids ∧
    c = combine_detector_results ((selectDetectors reg ids).map
        (fun p => (p.1, entryOf p.2.outcome))) := by
  rw [analyze_eq] at h
  generalize hsel : selectDetectors reg ids = sel at h ⊢
  cases heq : processResults (sel.map Prod.fst)
      ((sel.filter (fun p => p.2.enabled)).map (fun p => p.2.outcome)) with
  | error e =>
    rw [heq] at h
    simp [Except.map] at h
  | ok results =>
    rw [heq] at h
    simp only [Except.map, Except.ok.injEq] at h
    have hlen := processResults_length heq
    have hfil : sel.filter (fun p => p.2.enabled) = sel := by
      apply length_le_filter_eq
      simpa using hlen
    rw [hfil] at heq
    rw [processResults_lockstep] at heq
    simp only [Except.ok.injEq] at heq
    exact ⟨hfil, by rw [← h, ← heq]⟩

theorem dictInsert_keys {α : Type} (d : List (String × α)) (k : String)
    (v : α) :
    (dictInsert d k v).map Prod.fst =
      if k ∈ d.map Prod.fst then d.map Prod.fst
      else d.map Prod.fst ++ [k] := by
  by_cases hmem : k ∈ d.map Prod.fst
  · rw [if_pos hmem]
    unfold dictInsert
    rw [if_pos hmem, List.map_map]
    apply List.map_congr_left
    intro p _
    by_cases hpk : p.1 = k
    · simp [hpk]
    · simp [hpk]
  · rw [if_neg hmem]
    unfold dictInsert
    rw [if_neg hmem]
    simp

theorem dictInsert_keys_nodup {α : Type} {d : List (String × α)}
    (k : String) (v : α) (h : (d.map Prod.fst).Nodup) :
    ((dictInsert d k v).map Prod.fst).Nodup := by
  rw [dictInsert_keys]
  by_cases hmem : k ∈ d.map Prod.fst
  · rwa [if_pos hmem]
  · rw [if_neg hmem]
    refine List.Nodup.append h (List.nodup_singleton k) ?_
    intro a ha hb
    rw [List.mem_singleton] at hb
    subst hb
    exact hmem ha

theorem selectFold_nodup (reg : Registry) (l : List String) :
    ∀ acc : Registry, (acc.map Prod.fst).Nodup →
      ((l.foldl (selectStep reg) acc).map Prod.fst).Nodup := by
  induction l with
  | nil => intro acc h; exact h
  | cons i l ih =>
    intro acc h
    simp only [List.foldl_cons]
    apply ih
    unfold selectStep
    cases hd : dictLookup reg i with
    | none => simpa [hd] using h
    | some d =>
      simp only [hd]
      exact dictInsert_keys_nodup i d h

theorem selectKeys_nodup (reg : Registry) (ids : Option (List String))
    (hreg : (reg.map Prod.fst).Nodup) :
    ((selectDetectors reg ids).map Prod.fst).Nodup := by
  cases ids with
  | none => exact hreg
  | some l =>
    simp only [selectDetectors]
    split
    · exact hreg
    · exact selectFold_nodup reg l [] (by simp)

/-- Claim C3: for a well-formed registry, whenever `analyze_transaction`
returns a verdict, every dispatched detector identifier (selected, found,
and enabled) appears exactly once among the keys of the returned
per-detector result mapping. -/
theorem dispatched_detector_appears_once (reg : Registry)
    (ids : Option (List String)) (c : CombinedResult)
    (hreg : (reg.map Prod.fst).Nodup)
    (h : analyze_transaction reg ids = .ok c)
    (id : String) (hid : id ∈ dispatchedIds reg ids) :
    (c.detector_results.map Prod.fst).count id = 1 := by
  obtain ⟨hfil, hc⟩ := analyze_ok_spec h
  have hkeys : c.detector_results.map Prod.fst =
      (selectDetectors reg ids).map Prod.fst := by
    rw [hc]
    show ((selectDetectors reg ids).map
      (fun p => (p.1, entryOf p.2.outcome))).map Prod.fst = _
    rw [List.map_map]
    rfl
  have hmem : id ∈ (selectDetectors reg ids).map Prod.fst := by
    unfold dispatchedIds at hid
    rwa [hfil] at hid
  rw [hkeys]
  exact List.count_eq_one_of_mem (selectKeys_nodup reg ids hreg) hmem

/-- A two-detector registry, both enabled, one reporting risk `low` and
one reporting risk `critical`, each with one detail string. -/
def regLC : Registry :=
  [("A", { enabled := true,
           outcome := .ok { success := none, risk_level := some "low",
                            details := .list ["a1"], error := none } }),
   ("B", { enabled := true,
           outcome := .ok { success := none, risk_level := some "critical",
                            details := .list ["b1"], error := none } })]

/-- The verdict `analyze_transaction regLC none` computes to. -/
def cLC : CombinedResult :=
  { overall_risk := "critical"
    details := ["[A] a1", "[B] b1"]
    detector_results :=
      [("A", { success := true, risk_level := some "low",
               details := .list ["a1"], error := none }),
       ("B", { success := true, risk_level := some "critical",
               details := .list ["b1"], error := none })] }

/-- Witness for C3 at the two-detector registry and identifier `A`. -/
theorem dispatched_detector_appears_once_witness :
    ((regLC.map Prod.fst).Nodup ∧
      analyze_transaction regLC none = .ok cLC ∧
      "A" ∈ dispatchedIds regLC none) ∧
    (cLC.detector_results.map Prod.fst).count "A" = 1 :=
  ⟨⟨by decide, rfl, by decide⟩,
    dispatched_detector_appears_once regLC none cLC (by decide) rfl "A"
      (by decide)⟩

/-- Claim C4: whenever `analyze_transaction` returns a verdict, its
overall risk level is `calculate_highest_risk_level` applied to the risk
levels of exactly the per-detector entries marked successful. -/
theorem overall_risk_from_successful_entries (reg : Registry)
    (ids : Option (List String)) (c : CombinedResult)
    (h : analyze_transaction reg ids = .ok c) :
    c.overall_risk = calculate_highest_risk_level
      (c.detector_results.filterMap
        (fun p => if p.2.success then p.2.risk_level else none)) := by
  obtain ⟨-, hc⟩ := analyze_ok_spec h
  rw [hc]
  rfl

/-- Witness for C4: two enabled detectors returning `low` and `critical`
produce overall risk `critical`. -/
theorem overall_risk_from_successful_entries_witness :
    analyze_transaction regLC none = .ok cLC ∧
    (cLC.overall_risk = calculate_highest_risk_level
      (cLC.detector_results.filterMap
        (fun p => if p.2.success then p.2.risk_level else none)) ∧
    cLC.overall_risk = "critical") :=
  ⟨rfl, overall_risk_from_successful_entries regLC none cLC rfl, rfl⟩

/-- Claim C9: whenever `analyze_transaction` returns a verdict, its
detail list is the concatenation, in detector dispatch order, of each
dispatched detector's detail strings in their per-detector order, each
labelled with the originating detector identifier. -/
theorem details_follow_dispatch_order (reg : Registry)
    (ids : Option (List String)) (c : CombinedResult)
    (h : analyze_transaction reg ids = .ok c) :
    c.details = ((selectDetectors reg ids).filter
      (fun p => p.2.enabled)).flatMap
      (fun p => tagDetails p.1 (entryOf p.2.outcome)) := by
  obtain ⟨hfil, hc⟩ := analyze_ok_spec h
  rw [hfil, hc]
  show ((selectDetectors reg ids).map
    (fun p => (p.1, entryOf p.2.outcome))).flatMap
      (fun p => tagDetails p.1 p.2) = _
  rw [List.flatMap_map]

/-- Witness for C9 at the two-detector registry. -/
theorem details_follow_dispatch_order_witness :
    analyze_transaction regLC none = .ok cLC ∧
    cLC.details = ((selectDetectors regLC none).filter
      (fun p => p.2.enabled)).flatMap
      (fun p => tagDetails p.1 (entryOf p.2.outcome)) :=
  ⟨rfl, details_follow_dispatch_order regLC none cLC rfl⟩

theorem selectFold_absent (reg : Registry) (ids : List String)
    (acc : Registry) (h : ∀ id ∈ ids, dictLookup reg id = none) :
    ids.foldl (selectStep reg) acc = acc := by
  induction ids generalizing acc with
  | nil => rfl
  | cons i l ih =>
    simp only [List.foldl_cons]
    have hstep : selectStep reg acc i = acc := by
      unfold selectStep
      simp [h i (by simp)]
    rw [hstep]
    exact ih acc (fun id hid => h id (by simp [hid]))

/-- Claim C7: requesting a non-empty subset of identifiers, none of which
is present in the (non-empty) registry, does not raise and returns
overall risk `"unknown"` with an empty detail list and an empty
per-detector mapping. -/
theorem analyze_unknown_ids_empty_verdict (reg : Registry)
    (ids : List String) (_hreg : reg ≠ []) (hids : ids ≠ [])
    (habs : ∀ id ∈ ids, dictLookup reg id = none) :
    analyze_transaction reg (some ids) =
      .ok { overall_risk := "unknown", details := [],
            detector_results := [] } := by
  have hsel : selectDetectors reg (some ids) = [] := by
    simp only [selectDetectors]
    rw [if_neg (by simpa using hids)]
    exact selectFold_absent reg ids [] habs
  rw [analyze_eq, hsel]
  rfl

/-- A one-detector registry used as C7 witness data. -/
def regA : Registry :=
  [("A", { enabled := true,
           outcome := .ok { success := none, risk_level := some "low",
                            details := .missing, error := none } })]

/-- Witness for C7: requesting `["nonexistent"]` against a one-detector
registry. -/
theorem analyze_unknown_ids_empty_verdict_witness :
    (regA ≠ [] ∧ (["nonexistent"] : List String) ≠ [] ∧
      ∀ id ∈ (["nonexistent"] : List String), dictLookup regA id = none) ∧
    analyze_transaction regA (some ["nonexistent"]) =
      .ok { overall_risk := "unknown", details := [],
            detector_results := [] } :=
  ⟨⟨by decide, by decide, by decide⟩,
    analyze_unknown_ids_empty_verdict regA ["nonexistent"] (by decide)
      (by decide) (by decide)⟩

end Web3Sentry
